import Mathlib

/-!
Verification of the pppr prerender router (src/lib/prerender.js, current
version: the one exporting `staticInstance` with user-agent strategies,
an allow-domain gate and before/after hooks).

The request handler is embedded as a pure function from the request
environment (query, headers, the browser's reported user agent, and the
outcome of each navigation attempt) and the cache state to a terminal
outcome, the ordered list of observable effects the handler performs,
and the updated cache state.  Platform APIs (the WHATWG URL object,
URLSearchParams serialisation, puppeteer's page/navigation objects) are
modelled only to the extent the source uses them; the lru-cache library
is not part of the repository's sources and is modelled from the spec
(bounded LRU map whose entries expire after a maxAge, stale entries
treated as misses and removed lazily on access).
-/

namespace PPPR

/-- One entry of puppeteer's `request.redirectChain()` as the source reads
it: `chain[0].url()`, `chain[0]._frame._url` and `chain[0]._response._status`. -/
structure RedirectEntry where
  url : String
  frameUrl : String
  respStatus : Nat
deriving Repr, DecidableEq

/-- The result of a successful `page.goto`: the HTTP status of the final
response, the redirect chain of its request, and the HTML document that
`page.content()` would subsequently extract. -/
structure NavResponse where
  status : Nat
  chain : List RedirectEntry
  content : String
deriving Repr, DecidableEq

/-- Terminal outcome of one handler invocation: `res.sendStatus(code)`,
`res.redirect(code, location)`, `res.send(body)`, or an uncaught
exception escaping the async handler (e.g. `new URL` throwing). -/
inductive Outcome where
  | sendStatus (code : Nat)
  | redirect (code : Nat) (location : String)
  | send (body : String)
  | crash
deriving Repr, DecidableEq

/-- Observable side effects of the handler, in program order. -/
inductive Effect where
  | beforeRender (ua url : String)
  | cacheGet (key : String) (hit : Bool)
  | afterRender (ua url content : String)
  | launchBrowser
  | newPage
  | setUserAgent (ua : String)
  | navAttempt (url : String) (ok : Bool)
  | extractContent
  | cacheSet (key key2 : String)
  | pageClose
deriving Repr, DecidableEq

/-- The `UserAgentType` enum of the source (TYPE_CUSTOM, TYPE_SOURCE,
TYPE_HEADLESS). -/
inductive UAType where
  | custom
  | source
  | headless
deriving Repr, DecidableEq

/-- `opts.customUserAgent`: a string, or a function of the source
request's user agent (`typeof opts.customUserAgent === 'function'`). -/
inductive CustomUA where
  | str (s : String)
  | fn (f : String → String)

/-! ### Model of the platform URL API, as used by `buildUrl` -/

/-- Hostname, origin, pathname and parsed query of a URL, the four
projections of the WHATWG `URL` object that `buildUrl` reads. -/
structure URLParts where
  origin : String
  pathname : String
  searchParams : List (String × String)
  hostname : String
deriving Repr, DecidableEq

/-- Split a character list at the first occurrence of a separator;
`none` when the separator does not occur. -/
def splitFirst (sep : Char) : List Char → Option (List Char × List Char)
  | [] => none
  | c :: cs =>
    if c == sep then some ([], cs)
    else
      match splitFirst sep cs with
      | none => none
      | some (l, r) => some (c :: l, r)

/-- Longest nose of the list whose characters fail `p`, paired with the
remainder (which starts with the first character satisfying `p`). -/
def breakAt (p : Char → Bool) : List Char → List Char × List Char
  | [] => ([], [])
  | c :: cs =>
    if p c then ([], c :: cs)
    else
      let r := breakAt p cs
      (c :: r.1, r.2)

/-- Split a character list on every occurrence of a separator. -/
def splitAll (sep : Char) : List Char → List (List Char)
  | [] => [[]]
  | c :: cs =>
    let r := splitAll sep cs
    if c == sep then [] :: r
    else
      match r with
      | [] => [[c]]
      | h :: t => (c :: h) :: t

/-- Parse a querystring into key/value pairs in textual order, the way
`URLSearchParams` exposes them (percent-decoding elided: the source only
merges and re-serialises, so pairs are kept verbatim). -/
def parseQuery (l : List Char) : List (String × String) :=
  (splitAll '&' l).filterMap fun piece =>
    if piece.isEmpty then none
    else
      match splitFirst '=' piece with
      | none => some (String.mk piece, "")
      | some (k, v) => some (String.mk k, String.mk v)

/-- Serialise key/value pairs the way `URLSearchParams.toString` does:
pairs joined by ampersands, key and value joined by an equals sign
(percent-encoding elided, see `parseQuery`). -/
def serializeQuery (ps : List (String × String)) : String :=
  String.intercalate "&" (ps.map fun p => p.1 ++ "=" ++ p.2)

/-- Model of `new URL(s)` restricted to the projections `buildUrl`
reads: `none` models the constructor throwing on input it cannot parse
(no scheme, no `//`, empty host). -/
def parseURL (s : String) : Option URLParts :=
  match splitFirst ':' s.data with
  | none => none
  | some (scheme, rest) =>
    match rest with
    | '/' :: '/' :: rest2 =>
      if scheme.isEmpty then none
      else
        let hp := breakAt (fun c => c == '/' || c == '?' || c == '#') rest2
        if hp.1.isEmpty then none
        else
          let pq := breakAt (fun c => c == '?' || c == '#') hp.2
          let pathname := if pq.1.isEmpty then ['/'] else pq.1
          let queryChars :=
            match pq.2 with
            | '?' :: qs => (breakAt (fun c => c == '#') qs).1
            | _ => []
          let hostname := (breakAt (fun c => c == ':') hp.1).1
          some
            { origin := String.mk (scheme ++ (':' :: '/' :: '/' :: hp.1))
              pathname := String.mk pathname
              searchParams := parseQuery queryChars
              hostname := String.mk hostname }
    | _ => none

/-! ### buildUrl and checkAllowDomains (src/lib/prerender.js 368-398) -/

/-- `buildUrl(query)`: takes `query.url`, deletes the `url` key, parses
the target, copies its searchParams, appends every remaining query
entry in arrival order, and reassembles origin + pathname + merged
querystring.  Returns the canonical url together with the hostname.
`none` models the JS handler throwing (missing or unparseable `url`). -/
def buildUrl (query : List (String × String)) : Option (String × String) :=
  match query.find? (fun p => p.1 == "url") with
  | none => none
  | some pr =>
    let query2 := query.filter fun p => !(p.1 == "url")
    match parseURL pr.2 with
    | none => none
    | some u =>
      let params := u.searchParams ++ query2
      let querystring := serializeQuery params
      let url0 := u.origin ++ u.pathname
      let url1 := if querystring.isEmpty then url0 else url0 ++ "?" ++ querystring
      some (url1, u.hostname)

/-- `checkAllowDomains`: true when the allow list is empty or some entry
equals the hostname exactly. -/
def checkAllowDomains (allowDomains : List String) (hostname : String) : Bool :=
  allowDomains.isEmpty || allowDomains.any fun domain => domain == hostname

/-! ### Result cache

Modelled from the spec: the lru-cache library is a dependency, not part
of the repository's sources.  Spec 4.1: bounded capacity with
least-recently-used eviction when full; each entry expires after a
time-to-live; an expired entry is treated as a miss and removed lazily
on access. -/

/-- One cache entry: the stored HTML and its insertion time. -/
structure CacheEntry where
  value : String
  insertedAt : Nat
deriving Repr, DecidableEq

/-- Cache state: entries most-recently-used first. -/
structure CacheState where
  entries : List (String × CacheEntry)
deriving Repr, DecidableEq

/-- Modelled from the spec: `cache.get(key)` at time `now` with entry
lifetime `maxAge`.  A fresh hit returns the value and moves the entry
to the front; a stale entry is removed and reported as a miss. -/
def cacheGetFn (maxAge now : Nat) (c : CacheState) (k : String) :
    Option String × CacheState :=
  match c.entries.find? (fun p => p.1 == k) with
  | none => (none, c)
  | some pr =>
    if now - pr.2.insertedAt > maxAge then
      (none, ⟨c.entries.filter fun p => !(p.1 == k)⟩)
    else
      (some pr.2.value, ⟨(k, pr.2) :: c.entries.filter fun p => !(p.1 == k)⟩)

/-- Modelled from the spec: `cache.set(key, value)` at time `now` with
capacity `max`: insert at the front, drop any older entry for the same
key, evict from the least-recently-used end when over capacity. -/
def cacheSetFn (max now : Nat) (c : CacheState) (k v : String) : CacheState :=
  ⟨((k, ⟨v, now⟩) :: c.entries.filter fun p => !(p.1 == k)).take max⟩

/-! ### User-agent resolution (src/lib/prerender.js 278-292) -/

/-- First-occurrence prefix test used by `replaceFirstChars`. -/
def startsWithChars : List Char → List Char → Bool
  | [], _ => true
  | _ :: _, [] => false
  | a :: as, b :: bs => a == b && startsWithChars as bs

/-- JS `String.replace` with a string pattern: replace only the first
occurrence. -/
def replaceFirstChars (pat rep : List Char) : List Char → List Char
  | [] => []
  | c :: cs =>
    if startsWithChars pat (c :: cs) then rep ++ (c :: cs).drop pat.length
    else c :: replaceFirstChars pat rep cs

/-- JS `s.replace(pat, rep)` for a plain string pattern (first
occurrence only). -/
def replaceFirst (s pat rep : String) : String :=
  String.mk (replaceFirstChars pat.data rep.data s.data)

/-- Decorated options as consumed by the request handler. -/
structure HOpts where
  cacheEnabled : Bool
  cacheMax : Nat
  cacheMaxAge : Nat
  retryTimes : Nat
  allowDomains : List String
  userAgentType : UAType
  customUserAgent : CustomUA
  hasBeforeRender : Bool
  hasAfterRender : Bool

/-- Per-request environment: the raw query in arrival order, the two
consumed headers, whether the shared browser is already launched, the
browser's own reported user agent, the result of the i-th `page.goto`
attempt (`none` models a throw or a null response), and the current
time. -/
structure Env where
  query : List (String × String)
  sourceUserAgent : String
  rawBrowserUA : String
  browserLaunched : Bool
  nav : Nat → Option NavResponse
  now : Nat

/-- The user agent the handler presents, per `opts.userAgentType`
(lines 278-292): TYPE_CUSTOM uses the configured string or applies the
configured function to the source user agent; TYPE_SOURCE passes the
source header through; TYPE_HEADLESS takes `browser.userAgent()` with
its first occurrence of HeadlessChrome replaced by Chrome. -/
def resolveUserAgent (o : HOpts) (env : Env) : String :=
  match o.userAgentType with
  | .custom =>
    match o.customUserAgent with
    | .fn f => f env.sourceUserAgent
    | .str s => s
  | .source => env.sourceUserAgent
  | .headless => replaceFirst env.rawBrowserUA "HeadlessChrome" "Chrome"

/-! ### The retry loop (src/lib/prerender.js 306-330) -/

/-- First successful attempt among `nav i, nav (i+1), ...` within
`fuel` further attempts, with its index. -/
def firstHitFrom (nav : Nat → Option NavResponse) : Nat → Nat → Option (Nat × NavResponse)
  | _, 0 => none
  | i, fuel + 1 =>
    match nav i with
    | some r => some (i, r)
    | none => firstHitFrom nav (i + 1) fuel

/-- The retry loop's result: the first attempt index below `n` whose
navigation yields a response, with that response. -/
def firstHit (nav : Nat → Option NavResponse) (n : Nat) : Option (Nat × NavResponse) :=
  firstHitFrom nav 0 n

/-- The navigation attempts the loop performs when it runs `k` attempts:
one `navAttempt` effect per iteration, recording whether it produced a
response. -/
def navTrace (url : String) (nav : Nat → Option NavResponse) (k : Nat) : List Effect :=
  (List.range k).map fun j => Effect.navAttempt url ((nav j).isSome)

/-- The handler from the retry loop on (lines 306-365), given the
canonical url, the resolved user agent and the post-lookup cache state:
retry `goto` up to `retryTimes` times (all failed: close the page and
send 500; `retryTimes = 0` leaves `response` undefined and the handler
crashes dereferencing it); on a response whose redirect chain has
exactly one entry, redirect with that entry's status and frame url;
otherwise extract the content, fire `afterRender` when configured,
write the cache when enabled, close the page and send the content. -/
def navigatePhase (o : HOpts) (env : Env) (url ua : String) (c1 : CacheState) :
    Outcome × List Effect × CacheState :=
  if o.retryTimes = 0 then (.crash, [], c1)
  else
    match firstHit env.nav o.retryTimes with
    | none =>
      (.sendStatus 500, navTrace url env.nav o.retryTimes ++ [.pageClose], c1)
    | some ir =>
      let navs := navTrace url env.nav (ir.1 + 1)
      match ir.2.chain with
      | [entry] =>
        (.redirect entry.respStatus entry.frameUrl, navs ++ [.pageClose], c1)
      | _ =>
        let content := ir.2.content
        let afterE :=
          if o.hasAfterRender then [Effect.afterRender ua url content] else []
        let cw :=
          if o.cacheEnabled then
            (cacheSetFn o.cacheMax env.now c1 url content,
             [Effect.cacheSet url content])
          else (c1, [])
        (.send content,
         navs ++ [Effect.extractContent] ++ afterE ++ cw.2 ++ [Effect.pageClose],
         cw.1)

/-- The cache lookup of lines 260-272: consulted only when the cache is
enabled. -/
def lookupCache (o : HOpts) (env : Env) (c0 : CacheState) (url : String) :
    Option String × CacheState :=
  if o.cacheEnabled then cacheGetFn o.cacheMaxAge env.now c0 url else (none, c0)

/-- The GET handler of src/lib/prerender.js lines 243-366: build the
canonical url, gate on the allow list (403), fire `beforeRender`, serve
a cache hit (firing `afterRender` with the source user agent), else
launch the browser if needed, resolve the user agent, open a page, set
the user agent, and run the navigation phase. -/
def handler (o : HOpts) (env : Env) (c0 : CacheState) :
    Outcome × List Effect × CacheState :=
  match buildUrl env.query with
  | none => (.crash, [], c0)
  | some uh =>
    if checkAllowDomains o.allowDomains uh.2 then
      let pre0 :=
        if o.hasBeforeRender then [Effect.beforeRender env.sourceUserAgent uh.1] else []
      let lk := lookupCache o env c0 uh.1
      let pre1 :=
        pre0 ++ (if o.cacheEnabled then [Effect.cacheGet uh.1 lk.1.isSome] else [])
      match lk.1 with
      | some content =>
        (.send content,
         pre1 ++
           (if o.hasAfterRender then
              [Effect.afterRender env.sourceUserAgent uh.1 content]
            else []),
         lk.2)
      | none =>
        let launchE := if env.browserLaunched then [] else [Effect.launchBrowser]
        let ua := resolveUserAgent o env
        let np := navigatePhase o env uh.1 ua lk.2
        (np.1,
         pre1 ++ launchE ++ [Effect.newPage, Effect.setUserAgent ua] ++ np.2.1,
         np.2.2)
    else (.sendStatus 403, [], c0)

/-! ### decorateOptions (src/lib/prerender.js 429-450) -/

/-- The `opts.cache` value as the JS code can receive it: absent,
`null` (typeof null is still object), a boolean, or an options object
whose `max`/`maxAge` fields may be absent (`none`) or a number (0 being
falsy). -/
inductive JsCacheOpt where
  | undef
  | null
  | bool (b : Bool)
  | obj (max maxAge : Option Nat)
deriving Repr, DecidableEq

/-- JS truthiness of the cache option: objects are truthy, `false`,
`null` and undefined are falsy (line 236: `if (opts.cache)`). -/
def JsCacheOpt.truthy : JsCacheOpt → Bool
  | .undef => false
  | .null => false
  | .bool b => b
  | .obj _ _ => true

/-- `x || d` for a possibly-absent possibly-zero numeric JS option. -/
def orDefaultNat (x : Option Nat) (d : Nat) : Nat :=
  match x with
  | none => d
  | some 0 => d
  | some n => n

/-- The caller-supplied options record, before decoration. -/
structure OptsIn where
  cache : JsCacheOpt := .undef
  retryTimes : Option Nat := none
  endpoint : Option String := none
  userAgentType : Option UAType := none
  allowDomains : Option (List String) := none
deriving Repr, DecidableEq

/-- The options record after decoration. -/
structure OptsDec where
  cache : JsCacheOpt
  retryTimes : Nat
  endpoint : String
  userAgentType : UAType
  allowDomains : List String
deriving Repr, DecidableEq

/-- `decorateOptions` (lines 429-450): when `opts.cache` is an object,
`null` or absent, replace a falsy value by `{}` and fill falsy `max` /
`maxAge` with 50 and 300000; when it is the boolean true, same
defaults; when it is the boolean false, leave it (the router then runs
without a cache).  `retryTimes`, `endpoint`, `userAgentType` and
`allowDomains` each get their default when falsy. -/
def decorateOptions (o : OptsIn) : OptsDec :=
  let cache :=
    match o.cache with
    | .undef => JsCacheOpt.obj (some 50) (some 300000)
    | .null => JsCacheOpt.obj (some 50) (some 300000)
    | .obj m a => JsCacheOpt.obj (some (orDefaultNat m 50)) (some (orDefaultNat a 300000))
    | .bool true => JsCacheOpt.obj (some 50) (some 300000)
    | .bool false => JsCacheOpt.bool false
  { cache := cache
    retryTimes := orDefaultNat o.retryTimes 5
    endpoint :=
      match o.endpoint with
      | none => "/render"
      | some s => if s.isEmpty then "/render" else s
    userAgentType :=
      match o.userAgentType with
      | none => UAType.headless
      | some t => t
    allowDomains :=
      match o.allowDomains with
      | none => []
      | some l => l }

/-- Line 236: the router builds a cache exactly when the decorated
cache option is truthy. -/
def cacheEnabledOf (o : OptsIn) : Bool :=
  ((decorateOptions o).cache).truthy

/-! ### Interleaving model for concurrent requests

The handler contains no worker pool, queue, semaphore or any other
inter-request synchronisation: each request unconditionally calls
`browser.newPage()` and navigates its own page (lines 294-330), so the
event loop may interleave the awaited steps of concurrent requests
arbitrarily, subject only to each request's own program order.  A
concurrent execution of `n` requests is therefore any interleaving of
their per-request action sequences. -/

/-- A request's steps, abstracted to what matters for concurrency: a
navigation in flight is bracketed by `navStart`/`navEnd`; every other
effect is an internal step. -/
inductive Action where
  | navStart
  | navEnd
  | step
deriving Repr, DecidableEq

/-- Abstract a handler effect trace into its action sequence: each
navigation attempt spans a start and an end, everything else is one
internal step. -/
def scriptOf : List Effect → List Action
  | [] => []
  | Effect.navAttempt _ _ :: es => Action.navStart :: Action.navEnd :: scriptOf es
  | _ :: es => Action.step :: scriptOf es

/-- The actions request `i` has performed in a run. -/
def projSeq (i : Nat) (run : List (Nat × Action)) : List Action :=
  (run.filter fun p => p.1 == i).map Prod.snd

/-- `run` is an interleaving of the scripts of requests `0..n-1`: it
mentions only those requests and restricts, per request, to exactly
that request's script in order. -/
def IsInterleaving (n : Nat) (scripts : Nat → List Action) (run : List (Nat × Action)) : Prop :=
  (∀ p ∈ run, p.1 < n) ∧ ∀ i, i < n → projSeq i run = scripts i

instance (n : Nat) (scripts : Nat → List Action) (run : List (Nat × Action)) :
    Decidable (IsInterleaving n scripts run) := by
  unfold IsInterleaving
  infer_instance

/-- Number of occurrences of an action in a sequence. -/
def countAct (a : Action) (l : List Action) : Nat :=
  (l.filter fun x => x == a).length

/-- Request `i` has a navigation in flight after the given partial run:
it has started more navigations than it has finished. -/
def navInFlight (run : List (Nat × Action)) (i : Nat) : Bool :=
  countAct Action.navEnd (projSeq i run) < countAct Action.navStart (projSeq i run)

/-- How many of requests `0..n-1` have a navigation in flight after the
given partial run. -/
def activeNavCount (n : Nat) (run : List (Nat × Action)) : Nat :=
  ((List.range n).filter fun i => navInFlight run i).length

/-! ### Derived trace shapes and branch lemmas -/

/-- Effects of a request served from the cache: optional `beforeRender`,
the hit lookup, optional `afterRender` with the source user agent. -/
def hitTrace (o : HOpts) (env : Env) (url content : String) : List Effect :=
  (if o.hasBeforeRender then [Effect.beforeRender env.sourceUserAgent url] else [])
  ++ [Effect.cacheGet url true]
  ++ (if o.hasAfterRender then [Effect.afterRender env.sourceUserAgent url content] else [])

/-- Effects a request performs between the cache miss and the first
navigation attempt. -/
def missPre (o : HOpts) (env : Env) (url : String) : List Effect :=
  (if o.hasBeforeRender then [Effect.beforeRender env.sourceUserAgent url] else [])
  ++ (if o.cacheEnabled then [Effect.cacheGet url false] else [])
  ++ (if env.browserLaunched then [] else [Effect.launchBrowser])
  ++ [Effect.newPage, Effect.setUserAgent (resolveUserAgent o env)]

theorem handler_crash (o : HOpts) (env : Env) (c0 : CacheState)
    (hb : buildUrl env.query = none) :
    handler o env c0 = (.crash, [], c0) := by
  simp [handler, hb]

theorem handler_403 (o : HOpts) (env : Env) (c0 : CacheState) (url host : String)
    (hb : buildUrl env.query = some (url, host))
    (hg : checkAllowDomains o.allowDomains host = false) :
    handler o env c0 = (.sendStatus 403, [], c0) := by
  simp [handler, hb, hg]

theorem handler_hit (o : HOpts) (env : Env) (c0 : CacheState) (url host content : String)
    (hb : buildUrl env.query = some (url, host))
    (hg : checkAllowDomains o.allowDomains host = true)
    (hlk : (lookupCache o env c0 url).1 = some content) :
    handler o env c0 =
      (.send content, hitTrace o env url content, (lookupCache o env c0 url).2) := by
  have hce : o.cacheEnabled = true := by
    by_contra hc
    simp [lookupCache, hc] at hlk
  simp [handler, hb, hg, hlk, hitTrace, hce, Option.isSome]

theorem handler_miss (o : HOpts) (env : Env) (c0 : CacheState) (url host : String)
    (hb : buildUrl env.query = some (url, host))
    (hg : checkAllowDomains o.allowDomains host = true)
    (hlk : (lookupCache o env c0 url).1 = none) :
    handler o env c0 =
      ((navigatePhase o env url (resolveUserAgent o env) (lookupCache o env c0 url).2).1,
       missPre o env url
         ++ (navigatePhase o env url (resolveUserAgent o env) (lookupCache o env c0 url).2).2.1,
       (navigatePhase o env url (resolveUserAgent o env) (lookupCache o env c0 url).2).2.2) := by
  simp only [handler, hb, hg, if_true]
  rcases h : lookupCache o env c0 url with ⟨hit, c1⟩
  rw [h] at hlk
  simp only at hlk
  subst hlk
  simp [missPre, List.append_assoc]

/-! ### firstHit characterisation -/

theorem firstHitFrom_none (nav : Nat → Option NavResponse) :
    ∀ fuel i, (∀ j, i ≤ j → j < i + fuel → nav j = none) →
      firstHitFrom nav i fuel = none := by
  intro fuel
  induction fuel with
  | zero => intro i _; rfl
  | succ fl ih =>
    intro i h
    unfold firstHitFrom
    rw [h i le_rfl (by omega)]
    exact ih (i + 1) fun j hj1 hj2 => h j (by omega) (by omega)

theorem firstHitFrom_find (nav : Nat → Option NavResponse) (k : Nat) (r : NavResponse) :
    ∀ fuel i, i ≤ k → k < i + fuel → (∀ j, i ≤ j → j < k → nav j = none) →
      nav k = some r → firstHitFrom nav i fuel = some (k, r) := by
  intro fuel
  induction fuel with
  | zero => intro i h1 h2 _ _; omega
  | succ fl ih =>
    intro i h1 h2 hnone hk
    unfold firstHitFrom
    rcases Nat.eq_or_lt_of_le h1 with he | hlt
    · subst he
      rw [hk]
    · rw [hnone i le_rfl hlt]
      exact ih (i + 1) hlt (by omega) (fun j hj1 hj2 => hnone j (by omega) hj2) hk

theorem firstHit_none (nav : Nat → Option NavResponse) (n : Nat)
    (h : ∀ j, j < n → nav j = none) : firstHit nav n = none :=
  firstHitFrom_none nav n 0 fun j _ hj => h j (by omega)

theorem firstHit_find (nav : Nat → Option NavResponse) (n k : Nat) (r : NavResponse)
    (hk : k < n) (h : ∀ j, j < k → nav j = none) (hr : nav k = some r) :
    firstHit nav n = some (k, r) :=
  firstHitFrom_find nav k r n 0 (Nat.zero_le k) (by omega)
    (fun j _ hj => h j hj) hr

/-! ### navigatePhase branch lemmas -/

theorem navigatePhase_fail (o : HOpts) (env : Env) (url ua : String) (c1 : CacheState)
    (hrt : o.retryTimes ≠ 0)
    (hfh : firstHit env.nav o.retryTimes = none) :
    navigatePhase o env url ua c1 =
      (.sendStatus 500, navTrace url env.nav o.retryTimes ++ [.pageClose], c1) := by
  simp [navigatePhase, hrt, hfh]

theorem navigatePhase_redirect (o : HOpts) (env : Env) (url ua : String) (c1 : CacheState)
    (i : Nat) (r : NavResponse) (entry : RedirectEntry)
    (hrt : o.retryTimes ≠ 0)
    (hfh : firstHit env.nav o.retryTimes = some (i, r))
    (hch : r.chain = [entry]) :
    navigatePhase o env url ua c1 =
      (.redirect entry.respStatus entry.frameUrl,
       navTrace url env.nav (i + 1) ++ [.pageClose], c1) := by
  simp [navigatePhase, hrt, hfh, hch]

theorem navigatePhase_success (o : HOpts) (env : Env) (url ua : String) (c1 : CacheState)
    (i : Nat) (r : NavResponse)
    (hrt : o.retryTimes ≠ 0)
    (hfh : firstHit env.nav o.retryTimes = some (i, r))
    (hch : r.chain.length ≠ 1) :
    navigatePhase o env url ua c1 =
      (.send r.content,
       navTrace url env.nav (i + 1) ++ [Effect.extractContent]
         ++ (if o.hasAfterRender then [Effect.afterRender ua url r.content] else [])
         ++ (if o.cacheEnabled then [Effect.cacheSet url r.content] else [])
         ++ [Effect.pageClose],
       if o.cacheEnabled then cacheSetFn o.cacheMax env.now c1 url r.content else c1) := by
  rcases hc : r.chain with _ | ⟨e, t⟩
  · simp only [navigatePhase, hrt, if_neg hrt, hfh, hc]
    rcases hce : o.cacheEnabled <;> simp [hce]
  · rcases ht : t with _ | ⟨e2, t2⟩
    · exfalso; apply hch; rw [hc, ht]; rfl
    · simp only [navigatePhase, hrt, if_neg hrt, hfh, hc, ht]
      rcases hce : o.cacheEnabled <;> simp [hce]

/-! ### Concrete fixtures -/

/-- Default decorated options: cache enabled with the default bounds,
five retries, empty allow list, headless user-agent strategy, an
afterRender hook installed. -/
def oDef : HOpts :=
  { cacheEnabled := true, cacheMax := 50, cacheMaxAge := 300000, retryTimes := 5,
    allowDomains := [], userAgentType := .headless, customUserAgent := .str "ua",
    hasBeforeRender := false, hasAfterRender := true }

/-- The empty cache. -/
def cache0 : CacheState := ⟨[]⟩

/-- A response whose request went through two redirects before
settling: a redirect chain of length two. -/
def respC1 : NavResponse :=
  { status := 200,
    chain := [⟨"https://a.com/u1", "https://a.com/u2", 301⟩,
              ⟨"https://a.com/u2", "https://a.com/u3", 302⟩],
    content := "<p>x</p>" }

/-- Environment whose navigation immediately yields `respC1`. -/
def envC1 : Env :=
  { query := [("url", "https://a.com/u1")], sourceUserAgent := "bot/1.0",
    rawBrowserUA := "Mozilla HeadlessChrome/1", browserLaunched := true,
    nav := fun _ => some respC1, now := 0 }

/-- A response with a single-entry redirect chain. -/
def respR1 : NavResponse :=
  { status := 200, chain := [⟨"https://a.com/u1", "https://a.com/new", 301⟩],
    content := "ignored" }

/-- Environment whose navigation immediately yields `respR1`. -/
def envR1 : Env := { envC1 with nav := fun _ => some respR1 }

/-! ### C1 -/

/-- C1 (amended): a completed navigation is treated as a redirect
exactly when its redirect chain has exactly ONE entry (the code tests
chain.length === 1, not non-emptiness): then the outcome is
`redirect` with the status code and target URL of that entry, no
content is extracted, nothing is cached and no afterRender fires; a
chain of any other length (including two or more entries) falls
through to content extraction and the outcome is `send`. -/
theorem C1_redirect_single_hop (o : HOpts) (env : Env) (c0 : CacheState)
    (url host : String)
    (hb : buildUrl env.query = some (url, host))
    (hg : checkAllowDomains o.allowDomains host = true)
    (hlk : (lookupCache o env c0 url).1 = none)
    (hrt : o.retryTimes ≠ 0) :
    (∀ i r entry,
        firstHit env.nav o.retryTimes = some (i, r) → r.chain = [entry] →
          (handler o env c0).1 = .redirect entry.respStatus entry.frameUrl
          ∧ Effect.extractContent ∉ (handler o env c0).2.1
          ∧ (∀ k v, Effect.cacheSet k v ∉ (handler o env c0).2.1)
          ∧ (∀ a b c, Effect.afterRender a b c ∉ (handler o env c0).2.1))
    ∧ (∀ i r, firstHit env.nav o.retryTimes = some (i, r) → r.chain.length ≠ 1 →
        (handler o env c0).1 = .send r.content) := by
  constructor
  · intro i r entry hfh hch
    rw [handler_miss o env c0 url host hb hg hlk,
        navigatePhase_redirect o env url (resolveUserAgent o env) _ i r entry hrt hfh hch]
    refine ⟨rfl, ?_, ?_, ?_⟩
    · simp [missPre, navTrace, List.mem_append, List.mem_map]
    · intro k v
      simp [missPre, navTrace, List.mem_append, List.mem_map]
    · intro a b c
      simp [missPre, navTrace, List.mem_append, List.mem_map]
  · intro i r hfh hch
    rw [handler_miss o env c0 url host hb hg hlk,
        navigatePhase_success o env url (resolveUserAgent o env) _ i r hrt hfh hch]

/-- C1, counterexample to the claim as stated: a completed navigation
with a NON-empty redirect chain of two entries is not redirected — the
handler extracts and sends the page content instead. -/
theorem C1_counterexample :
    envC1.nav 0 = some respC1
    ∧ respC1.chain.length = 2
    ∧ (handler oDef envC1 cache0).1 = Outcome.send "<p>x</p>"
    ∧ Effect.extractContent ∈ (handler oDef envC1 cache0).2.1 := by
  refine ⟨rfl, rfl, rfl, ?_⟩
  decide

/-- C1, witness: a concrete single-hop navigation is redirected with
the chain entry's status and target. -/
theorem C1_witness :
    (handler oDef envR1 cache0).1 = Outcome.redirect 301 "https://a.com/new" :=
  ((C1_redirect_single_hop oDef envR1 cache0 "https://a.com/u1" "a.com" rfl rfl rfl
        (by decide)).1
      0 respR1 ⟨"https://a.com/u1", "https://a.com/new", 301⟩ rfl rfl).1

/-! ### C2 -/

/-- A plain successful response: no redirect chain. -/
def respOk : NavResponse := { status := 200, chain := [], content := "<html>ok</html>" }

/-- Environment whose navigation fails on attempts 0-3 and succeeds on
attempt 4 (the last of the default five). -/
def envC2 : Env := { envC1 with nav := fun i => if i < 4 then none else some respOk }

/-- Environment whose every navigation attempt fails. -/
def envFailAll : Env := { envC1 with nav := fun _ => none }

/-- C2: a navigation that fails on the first retryTimes - 1 attempts
and succeeds on the last yields a sent page whose content is written to
the cache; a navigation that fails on all retryTimes attempts yields
status 500, performs no cache write, and leaves the cache at its
post-lookup state. -/
theorem C2_retry_budget (o : HOpts) (env : Env) (c0 : CacheState) (url host : String)
    (hb : buildUrl env.query = some (url, host))
    (hg : checkAllowDomains o.allowDomains host = true)
    (hlk : (lookupCache o env c0 url).1 = none)
    (hrt : o.retryTimes ≠ 0) :
    (∀ r, (∀ i, i < o.retryTimes - 1 → env.nav i = none) →
        env.nav (o.retryTimes - 1) = some r → r.chain.length ≠ 1 →
        o.cacheEnabled = true →
        (handler o env c0).1 = Outcome.send r.content
        ∧ Effect.cacheSet url r.content ∈ (handler o env c0).2.1
        ∧ (handler o env c0).2.2 =
            cacheSetFn o.cacheMax env.now (lookupCache o env c0 url).2 url r.content)
    ∧ ((∀ i, i < o.retryTimes → env.nav i = none) →
        (handler o env c0).1 = Outcome.sendStatus 500
        ∧ (∀ k v, Effect.cacheSet k v ∉ (handler o env c0).2.1)
        ∧ (handler o env c0).2.2 = (lookupCache o env c0 url).2) := by
  constructor
  · intro r hfail hsucc hch hce
    have hfh : firstHit env.nav o.retryTimes = some (o.retryTimes - 1, r) :=
      firstHit_find env.nav o.retryTimes (o.retryTimes - 1) r (by omega) hfail hsucc
    rw [handler_miss o env c0 url host hb hg hlk,
        navigatePhase_success o env url (resolveUserAgent o env) _ (o.retryTimes - 1) r hrt hfh hch]
    refine ⟨rfl, ?_, by simp [hce]⟩
    simp [hce, missPre, navTrace]
  · intro hfail
    have hfh : firstHit env.nav o.retryTimes = none := firstHit_none env.nav o.retryTimes hfail
    rw [handler_miss o env c0 url host hb hg hlk,
        navigatePhase_fail o env url (resolveUserAgent o env) _ hrt hfh]
    refine ⟨rfl, ?_, rfl⟩
    intro k v
    simp [missPre, navTrace]

/-- C2, witness: with the default five retries, four failures then a
success produce a sent and cached page, while five failures produce a
500 with no cache write. -/
theorem C2_witness :
    (handler oDef envC2 cache0).1 = Outcome.send "<html>ok</html>"
    ∧ Effect.cacheSet "https://a.com/u1" "<html>ok</html>" ∈ (handler oDef envC2 cache0).2.1
    ∧ (handler oDef envFailAll cache0).1 = Outcome.sendStatus 500
    ∧ Effect.cacheSet "https://a.com/u1" "<html>ok</html>" ∉
        (handler oDef envFailAll cache0).2.1 := by
  have h1 := (C2_retry_budget oDef envC2 cache0 "https://a.com/u1" "a.com" rfl rfl rfl
      (by decide)).1 respOk (by decide) rfl (by decide) rfl
  have h2 := (C2_retry_budget oDef envFailAll cache0 "https://a.com/u1" "a.com" rfl rfl rfl
      (by decide)).2 (fun i _ => rfl)
  exact ⟨h1.1, h1.2.1, h2.1, h2.2.1 "https://a.com/u1" "<html>ok</html>"⟩

/-! ### C3 -/

theorem navigatePhase_ne_403 (o : HOpts) (env : Env) (url ua : String) (c1 : CacheState) :
    (navigatePhase o env url ua c1).1 ≠ Outcome.sendStatus 403 := by
  unfold navigatePhase
  split
  · simp
  · split
    · simp
    · split
      · simp
      · simp

theorem checkAllowDomains_true_iff (l : List String) (h : String) :
    checkAllowDomains l h = true ↔ l = [] ∨ h ∈ l := by
  simp [checkAllowDomains, List.any_eq_true, List.isEmpty_iff, beq_iff_eq]

/-- C3: with an empty allow list every hostname passes the gate; with a
non-empty list the gate fails exactly when the canonical hostname
equals no entry; a failed gate makes the handler answer 403 with no
effect at all (no cache lookup, no browser launch, no navigation) and
an unchanged cache; a passed gate never produces the 403 outcome. -/
theorem C3_domain_gate (o : HOpts) (env : Env) (c0 : CacheState) (url host : String)
    (hb : buildUrl env.query = some (url, host)) :
    (o.allowDomains = [] → checkAllowDomains o.allowDomains host = true)
    ∧ (checkAllowDomains o.allowDomains host = false ↔
        o.allowDomains ≠ [] ∧ host ∉ o.allowDomains)
    ∧ (checkAllowDomains o.allowDomains host = false →
        handler o env c0 = (Outcome.sendStatus 403, [], c0))
    ∧ (checkAllowDomains o.allowDomains host = true →
        (handler o env c0).1 ≠ Outcome.sendStatus 403) := by
  refine ⟨?_, ?_, ?_, ?_⟩
  · intro h
    simp [checkAllowDomains, h]
  · rw [Bool.eq_false_iff, Ne, checkAllowDomains_true_iff, not_or]
  · intro hg
    exact handler_403 o env c0 url host hb hg
  · intro hg
    cases hlk : (lookupCache o env c0 url).1 with
    | some content =>
      rw [handler_hit o env c0 url host content hb hg hlk]
      simp
    | none =>
      rw [handler_miss o env c0 url host hb hg hlk]
      exact navigatePhase_ne_403 o env url (resolveUserAgent o env) _

/-- Environment asking to render a host absent from a configured allow
list. -/
def envC3 : Env := { envC1 with nav := fun _ => some respOk }

/-- Options with a non-empty allow list not containing a.com. -/
def oAllow : HOpts := { oDef with allowDomains := ["example.com"] }

/-- C3, witness: with allow list [example.com], the request for a.com
is answered 403 with no effects performed. -/
theorem C3_witness :
    handler oAllow envC3 cache0 = (Outcome.sendStatus 403, [], cache0) :=
  (C3_domain_gate oAllow envC3 cache0 "https://a.com/u1" "a.com" rfl).2.2.1 rfl

/-! ### C4 -/

/-- The raw query of the spec's worked example, in arrival order. -/
def exQuery : List (String × String) :=
  [("url", "https://ex.com/p?a=1"), ("hl", "en"), ("b", "2")]

/-- C4: the canonical URL is origin + pathname + the target's own query
pairs first, then every non-url query parameter appended in arrival
order; the url parameter itself is removed; on the spec's example the
result is https://ex.com/p?a=1&hl=en&b=2 (and the construction is a
pure function of the raw query, hence deterministic). -/
theorem C4_canonical_url (q : List (String × String)) (pr : String × String) (u : URLParts)
    (hq : q.find? (fun p => p.1 == "url") = some pr)
    (hu : parseURL pr.2 = some u) :
    buildUrl q =
      some
        ((if (serializeQuery (u.searchParams ++ q.filter fun p => !(p.1 == "url"))).isEmpty
            then u.origin ++ u.pathname
            else u.origin ++ u.pathname ++ "?"
              ++ serializeQuery (u.searchParams ++ q.filter fun p => !(p.1 == "url"))),
         u.hostname)
    ∧ buildUrl exQuery = some ("https://ex.com/p?a=1&hl=en&b=2", "ex.com") := by
  constructor
  · simp only [buildUrl, hq, hu]
  · rfl

/-- C4, witness: the worked example, through the general statement. -/
theorem C4_witness :
    buildUrl exQuery = some ("https://ex.com/p?a=1&hl=en&b=2", "ex.com") :=
  (C4_canonical_url exQuery ("url", "https://ex.com/p?a=1")
      ⟨"https://ex.com", "/p", [("a", "1")], "ex.com"⟩ rfl rfl).2

/-! ### C5 -/

/-- A navigation that settles on a 404 response with no redirect
chain. -/
def resp404 : NavResponse :=
  { status := 404, chain := [], content := "<html>404</html>" }

/-- Environment whose navigation immediately yields the 404 page. -/
def env404 : Env := { envC1 with nav := fun _ => some resp404 }

theorem cacheSet_not_mem_missPre (o : HOpts) (env : Env) (url k v : String) :
    Effect.cacheSet k v ∉ missPre o env url := by
  unfold missPre
  cases o.hasBeforeRender <;> cases o.cacheEnabled <;> cases env.browserLaunched <;> simp

theorem cacheSet_not_mem_navTrace (url k v : String)
    (nav : Nat → Option NavResponse) (n : Nat) :
    Effect.cacheSet k v ∉ navTrace url nav n := by
  simp [navTrace]

/-- C5 (amended): every cache write is the extracted content of a
completed navigation whose redirect chain did not have length one, and
the handler then sends exactly that content; no path with a 403/500
outcome or a redirect outcome writes the cache.  The handler never
inspects the response status, so the 2xx restriction of the claim does
not hold (see the counterexample). -/
theorem C5_cache_write_invariant (o : HOpts) (env : Env) (c0 : CacheState) :
    (∀ k v, Effect.cacheSet k v ∈ (handler o env c0).2.1 →
        (handler o env c0).1 = Outcome.send v
        ∧ o.cacheEnabled = true
        ∧ ∃ url host i r, buildUrl env.query = some (url, host) ∧ k = url
            ∧ firstHit env.nav o.retryTimes = some (i, r)
            ∧ r.chain.length ≠ 1 ∧ v = r.content)
    ∧ (∀ code, (handler o env c0).1 = Outcome.sendStatus code →
        ∀ k v, Effect.cacheSet k v ∉ (handler o env c0).2.1)
    ∧ (∀ code loc, (handler o env c0).1 = Outcome.redirect code loc →
        ∀ k v, Effect.cacheSet k v ∉ (handler o env c0).2.1) := by
  have main : ∀ k v, Effect.cacheSet k v ∈ (handler o env c0).2.1 →
      (handler o env c0).1 = Outcome.send v
      ∧ o.cacheEnabled = true
      ∧ ∃ url host i r, buildUrl env.query = some (url, host) ∧ k = url
          ∧ firstHit env.nav o.retryTimes = some (i, r)
          ∧ r.chain.length ≠ 1 ∧ v = r.content := by
    intro k v hmem
    rcases hb : buildUrl env.query with _ | ⟨url, host⟩
    · rw [handler_crash o env c0 hb] at hmem
      simp at hmem
    · by_cases hg : checkAllowDomains o.allowDomains host = true
      · cases hlk : (lookupCache o env c0 url).1 with
        | some content =>
          rw [handler_hit o env c0 url host content hb hg hlk] at hmem
          exfalso
          revert hmem
          unfold hitTrace
          cases o.hasBeforeRender <;> cases o.hasAfterRender <;> simp
        | none =>
          rw [handler_miss o env c0 url host hb hg hlk] at hmem ⊢
          by_cases hrt : o.retryTimes = 0
          · exfalso
            simp only [navigatePhase, hrt, if_pos, if_true] at hmem
            rw [List.append_nil] at hmem
            exact cacheSet_not_mem_missPre o env url k v hmem
          · cases hfh : firstHit env.nav o.retryTimes with
            | none =>
              rw [navigatePhase_fail o env url (resolveUserAgent o env) _ hrt hfh] at hmem
              exfalso
              rcases List.mem_append.mp hmem with h | h
              · exact cacheSet_not_mem_missPre o env url k v h
              · rcases List.mem_append.mp h with h | h
                · exact cacheSet_not_mem_navTrace url k v env.nav o.retryTimes h
                · simp at h
            | some ir =>
              by_cases hch : ir.2.chain.length = 1
              · obtain ⟨entry, he⟩ := List.length_eq_one.mp hch
                rw [navigatePhase_redirect o env url (resolveUserAgent o env) _ ir.1 ir.2
                      entry hrt (by rw [hfh]) he] at hmem
                exfalso
                rcases List.mem_append.mp hmem with h | h
                · exact cacheSet_not_mem_missPre o env url k v h
                · rcases List.mem_append.mp h with h | h
                  · exact cacheSet_not_mem_navTrace url k v env.nav (ir.1 + 1) h
                  · simp at h
              · rw [navigatePhase_success o env url (resolveUserAgent o env) _ ir.1 ir.2
                      hrt (by rw [hfh]) hch] at hmem ⊢
                have hkv : k = url ∧ v = ir.2.content := by
                  rcases List.mem_append.mp hmem with h | h
                  · exact absurd h (cacheSet_not_mem_missPre o env url k v)
                  · simp only [List.append_assoc, List.mem_append] at h
                    rcases h with h | h
                    · exact absurd h (cacheSet_not_mem_navTrace url k v env.nav (ir.1 + 1))
                    · rcases h with h | h
                      · simp at h
                      · rcases h with h | h
                        · revert h
                          cases o.hasAfterRender <;> simp
                        · rcases h with h | h
                          · revert h
                            cases hce : o.cacheEnabled <;> simp
                          · simp at h
                have hce : o.cacheEnabled = true := by
                  by_contra hc
                  have hcf : o.cacheEnabled = false := Bool.eq_false_iff.mpr hc
                  rcases List.mem_append.mp hmem with h | h
                  · exact cacheSet_not_mem_missPre o env url k v h
                  · revert h
                    cases o.hasAfterRender <;> simp [hcf, navTrace]
                refine ⟨?_, hce, url, host, ir.1, ir.2, rfl, hkv.1, rfl, hch, hkv.2⟩
                rw [hkv.2]
      · rw [handler_403 o env c0 url host hb (Bool.eq_false_iff.mpr hg)] at hmem
        simp at hmem
  refine ⟨main, ?_, ?_⟩
  · intro code hout k v hmem
    have h := (main k v hmem).1
    rw [hout] at h
    exact Outcome.noConfusion h
  · intro code loc hout k v hmem
    have h := (main k v hmem).1
    rw [hout] at h
    exact Outcome.noConfusion h

/-- C5, counterexample to the claim as stated: in a run whose every
navigation response has status 404 (not 2xx), the handler still writes
the extracted 404 page into the cache — the response status is never
inspected. -/
theorem C5_counterexample :
    env404.nav 0 = some resp404
    ∧ resp404.status = 404
    ∧ Effect.cacheSet "https://a.com/u1" "<html>404</html>" ∈
        (handler oDef env404 cache0).2.1
    ∧ (handler oDef env404 cache0).2.2 =
        ⟨[("https://a.com/u1", ⟨"<html>404</html>", 0⟩)]⟩ := by
  refine ⟨rfl, rfl, ?_, rfl⟩
  decide

/-- C5, witness: on the run that exhausts all retries (outcome 500),
no cache write occurs. -/
theorem C5_witness :
    Effect.cacheSet "https://a.com/u1" "x" ∉ (handler oDef envFailAll cache0).2.1 :=
  (C5_cache_write_invariant oDef envFailAll cache0).2.1 500 rfl "https://a.com/u1" "x"

/-! ### C6 -/

theorem cacheGetFn_after_set (max maxAge now now2 : Nat) (c : CacheState) (u v : String)
    (hmax : 1 ≤ max) (httl : now2 - now ≤ maxAge) :
    (cacheGetFn maxAge now2 (cacheSetFn max now c u v) u).1 = some v := by
  rcases max with _ | m
  · omega
  · have h1 : cacheSetFn (m + 1) now c u v =
        ⟨(u, ⟨v, now⟩) :: (c.entries.filter fun p => !(p.1 == u)).take m⟩ := by
      simp [cacheSetFn]
    rw [h1]
    unfold cacheGetFn
    rw [List.find?_cons_of_pos _ (by simp)]
    simp only
    rw [if_neg (by omega)]

/-- C6: after a fresh successful render of a URL, a second request for
the same canonical URL arriving within the cache maxAge is served from
the cache: it returns the rendered content and performs no navigation
attempt, opens no page and launches no browser. -/
theorem C6_cached_rerequest (o : HOpts) (env1 env2 : Env) (c0 : CacheState)
    (url host : String) (i : Nat) (r : NavResponse)
    (hb1 : buildUrl env1.query = some (url, host))
    (hb2 : buildUrl env2.query = some (url, host))
    (hg : checkAllowDomains o.allowDomains host = true)
    (hce : o.cacheEnabled = true)
    (hmax : 1 ≤ o.cacheMax)
    (hlk : (lookupCache o env1 c0 url).1 = none)
    (hrt : o.retryTimes ≠ 0)
    (hfh : firstHit env1.nav o.retryTimes = some (i, r))
    (hch : r.chain.length ≠ 1)
    (httl : env2.now - env1.now ≤ o.cacheMaxAge) :
    (handler o env2 (handler o env1 c0).2.2).1 = Outcome.send r.content
    ∧ (∀ u2 b, Effect.navAttempt u2 b ∉ (handler o env2 (handler o env1 c0).2.2).2.1)
    ∧ Effect.newPage ∉ (handler o env2 (handler o env1 c0).2.2).2.1
    ∧ Effect.launchBrowser ∉ (handler o env2 (handler o env1 c0).2.2).2.1 := by
  have h1 : (handler o env1 c0).2.2 =
      cacheSetFn o.cacheMax env1.now (lookupCache o env1 c0 url).2 url r.content := by
    rw [handler_miss o env1 c0 url host hb1 hg hlk,
        navigatePhase_success o env1 url (resolveUserAgent o env1) _ i r hrt hfh hch]
    simp [hce]
  have h2 : (lookupCache o env2 (handler o env1 c0).2.2 url).1 = some r.content := by
    rw [h1]
    unfold lookupCache
    rw [if_pos hce]
    exact cacheGetFn_after_set o.cacheMax o.cacheMaxAge env1.now env2.now _ url r.content
      hmax httl
  rw [handler_hit o env2 (handler o env1 c0).2.2 url host r.content hb2 hg h2]
  refine ⟨rfl, ?_, ?_, ?_⟩
  · intro u2 b
    unfold hitTrace
    cases o.hasBeforeRender <;> cases o.hasAfterRender <;> simp
  · unfold hitTrace
    cases o.hasBeforeRender <;> cases o.hasAfterRender <;> simp
  · unfold hitTrace
    cases o.hasBeforeRender <;> cases o.hasAfterRender <;> simp

/-- Environment whose navigation succeeds at once with `respOk`. -/
def envOk : Env := { envC1 with nav := fun _ => some respOk }

/-- The same request repeated 100 ms later. -/
def envOk2 : Env := { envOk with now := 100 }

/-- C6, witness: render once at time 0, re-request at time 100 — the
cached page is sent and no navigation or page creation occurs. -/
theorem C6_witness :
    (handler oDef envOk2 (handler oDef envOk cache0).2.2).1 = Outcome.send "<html>ok</html>"
    ∧ Effect.newPage ∉ (handler oDef envOk2 (handler oDef envOk cache0).2.2).2.1 := by
  have h := C6_cached_rerequest oDef envOk envOk2 cache0 "https://a.com/u1" "a.com" 0 respOk
    rfl rfl rfl rfl (by decide) rfl (by decide) rfl (by decide) (by decide)
  exact ⟨h.1, h.2.2.1⟩

/-! ### C7 -/

theorem afterRender_not_mem_missPre (o : HOpts) (env : Env) (url a b c : String) :
    Effect.afterRender a b c ∉ missPre o env url := by
  unfold missPre
  cases o.hasBeforeRender <;> cases o.cacheEnabled <;> cases env.browserLaunched <;> simp

theorem afterRender_not_mem_navTrace (url a b c : String)
    (nav : Nat → Option NavResponse) (n : Nat) :
    Effect.afterRender a b c ∉ navTrace url nav n := by
  simp [navTrace]

/-- C7: when the hook is configured, `afterRender` fires on a cache hit
with the source user agent and the cached content, and on a fresh
successful render with the resolved user agent and the extracted
content; conversely any `afterRender` occurrence implies the handler
sends exactly the content the hook received — so the hook never fires
on a redirect, 403, 500 or crash outcome. -/
theorem C7_afterRender_on_content (o : HOpts) (env : Env) (c0 : CacheState) :
    (∀ url host, buildUrl env.query = some (url, host) →
        checkAllowDomains o.allowDomains host = true → o.hasAfterRender = true →
        (∀ content, (lookupCache o env c0 url).1 = some content →
            Effect.afterRender env.sourceUserAgent url content ∈ (handler o env c0).2.1)
        ∧ (∀ i r, (lookupCache o env c0 url).1 = none → o.retryTimes ≠ 0 →
            firstHit env.nav o.retryTimes = some (i, r) → r.chain.length ≠ 1 →
            Effect.afterRender (resolveUserAgent o env) url r.content ∈
              (handler o env c0).2.1))
    ∧ (∀ a b c, Effect.afterRender a b c ∈ (handler o env c0).2.1 →
        (handler o env c0).1 = Outcome.send c) := by
  constructor
  · intro url host hb hg hA
    constructor
    · intro content hlk
      rw [handler_hit o env c0 url host content hb hg hlk]
      unfold hitTrace
      cases o.hasBeforeRender <;> simp [hA]
    · intro i r hlk hrt hfh hch
      rw [handler_miss o env c0 url host hb hg hlk,
          navigatePhase_success o env url (resolveUserAgent o env) _ i r hrt hfh hch]
      simp [hA]
  · intro a b c hmem
    rcases hb : buildUrl env.query with _ | ⟨url, host⟩
    · rw [handler_crash o env c0 hb] at hmem
      simp at hmem
    · by_cases hg : checkAllowDomains o.allowDomains host = true
      · cases hlk : (lookupCache o env c0 url).1 with
        | some content =>
          rw [handler_hit o env c0 url host content hb hg hlk] at hmem ⊢
          have : a = env.sourceUserAgent ∧ b = url ∧ c = content := by
            revert hmem
            unfold hitTrace
            cases o.hasBeforeRender <;> cases hA : o.hasAfterRender <;>
              simp +contextual [and_assoc]
          rw [this.2.2]
        | none =>
          rw [handler_miss o env c0 url host hb hg hlk] at hmem ⊢
          by_cases hrt : o.retryTimes = 0
          · exfalso
            simp only [navigatePhase, hrt, if_pos, if_true] at hmem
            rw [List.append_nil] at hmem
            exact afterRender_not_mem_missPre o env url a b c hmem
          · cases hfh : firstHit env.nav o.retryTimes with
            | none =>
              exfalso
              rw [navigatePhase_fail o env url (resolveUserAgent o env) _ hrt hfh] at hmem
              rcases List.mem_append.mp hmem with h | h
              · exact afterRender_not_mem_missPre o env url a b c h
              · rcases List.mem_append.mp h with h | h
                · exact afterRender_not_mem_navTrace url a b c env.nav o.retryTimes h
                · simp at h
            | some ir =>
              by_cases hch : ir.2.chain.length = 1
              · exfalso
                obtain ⟨entry, he⟩ := List.length_eq_one.mp hch
                rw [navigatePhase_redirect o env url (resolveUserAgent o env) _ ir.1 ir.2
                      entry hrt (by rw [hfh]) he] at hmem
                rcases List.mem_append.mp hmem with h | h
                · exact afterRender_not_mem_missPre o env url a b c h
                · rcases List.mem_append.mp h with h | h
                  · exact afterRender_not_mem_navTrace url a b c env.nav (ir.1 + 1) h
                  · simp at h
              · rw [navigatePhase_success o env url (resolveUserAgent o env) _ ir.1 ir.2
                      hrt (by rw [hfh]) hch] at hmem ⊢
                have hcr : c = ir.2.content := by
                  rcases List.mem_append.mp hmem with h | h
                  · exact absurd h (afterRender_not_mem_missPre o env url a b c)
                  · simp only [List.append_assoc, List.mem_append] at h
                    rcases h with h | h
                    · exact absurd h (afterRender_not_mem_navTrace url a b c env.nav (ir.1 + 1))
                    · rcases h with h | h
                      · simp at h
                      · rcases h with h | h
                        · revert h
                          cases o.hasAfterRender <;> simp +contextual
                        · rcases h with h | h
                          · revert h
                            cases o.cacheEnabled <;> simp
                          · simp at h
                rw [hcr]
      · rw [handler_403 o env c0 url host hb (Bool.eq_false_iff.mpr hg)] at hmem
        simp at hmem

/-- C7, witness: on a fresh successful render the hook fires with the
resolved user agent and the extracted content. -/
theorem C7_witness :
    Effect.afterRender (resolveUserAgent oDef envOk) "https://a.com/u1" "<html>ok</html>" ∈
      (handler oDef envOk cache0).2.1 :=
  ((C7_afterRender_on_content oDef envOk cache0).1 "https://a.com/u1" "a.com" rfl rfl rfl).2
    0 respOk rfl (by decide) rfl (by decide)

/-! ### C8 -/

/-- The user-agent string a real headless build reports. -/
def uaHeadless : String :=
  "Mozilla/5.0 (X11; Linux x86_64) AppleWebKit/537.36 (KHTML, like Gecko) HeadlessChrome/90.0.4430.93 Safari/537.36"

/-- The same string with the headless marker stripped. -/
def uaStripped : String :=
  "Mozilla/5.0 (X11; Linux x86_64) AppleWebKit/537.36 (KHTML, like Gecko) Chrome/90.0.4430.93 Safari/537.36"

/-- C8: on every cache-missing request the handler applies exactly the
resolved user agent to the page, and the resolution is: strategy
custom with a configured string gives that string, custom with a
configured function gives the function applied to the source
user agent, source gives the caller's own header unchanged, headless
(the decorated default) gives the browser's reported user agent with
the HeadlessChrome marker replaced by Chrome — as on the sample
string. -/
theorem C8_user_agent (o : HOpts) (env : Env) (c0 : CacheState) (url host : String)
    (hb : buildUrl env.query = some (url, host))
    (hg : checkAllowDomains o.allowDomains host = true)
    (hlk : (lookupCache o env c0 url).1 = none) :
    Effect.setUserAgent (resolveUserAgent o env) ∈ (handler o env c0).2.1
    ∧ (∀ s, o.userAgentType = UAType.custom → o.customUserAgent = CustomUA.str s →
        resolveUserAgent o env = s)
    ∧ (∀ f, o.userAgentType = UAType.custom → o.customUserAgent = CustomUA.fn f →
        resolveUserAgent o env = f env.sourceUserAgent)
    ∧ (o.userAgentType = UAType.source → resolveUserAgent o env = env.sourceUserAgent)
    ∧ (o.userAgentType = UAType.headless →
        resolveUserAgent o env = replaceFirst env.rawBrowserUA "HeadlessChrome" "Chrome")
    ∧ (decorateOptions {}).userAgentType = UAType.headless
    ∧ replaceFirst uaHeadless "HeadlessChrome" "Chrome" = uaStripped := by
  refine ⟨?_, ?_, ?_, ?_, ?_, rfl, by decide⟩
  · rw [handler_miss o env c0 url host hb hg hlk]
    unfold missPre
    cases o.hasBeforeRender <;> cases o.cacheEnabled <;> cases env.browserLaunched <;> simp
  · intro s ht hc
    simp [resolveUserAgent, ht, hc]
  · intro f ht hc
    simp [resolveUserAgent, ht, hc]
  · intro ht
    simp [resolveUserAgent, ht]
  · intro ht
    simp [resolveUserAgent, ht]

/-- C8, witness: the concrete headless-strategy run applies the
stripped browser user agent to the page. -/
theorem C8_witness :
    Effect.setUserAgent (resolveUserAgent oDef envOk) ∈ (handler oDef envOk cache0).2.1 :=
  (C8_user_agent oDef envOk cache0 "https://a.com/u1" "a.com" rfl rfl rfl).1

/-! ### C9 -/

/-- Phase one of the exhibited schedule: each request in turn performs
all its steps before its navigation starts. -/
def phasePre (n : Nat) (pre : List Action) : List (Nat × Action) :=
  (List.range n).flatMap fun j => pre.map fun a => (j, a)

/-- Phase two: every request starts its navigation, none has finished. -/
def phaseStart (n : Nat) : List (Nat × Action) :=
  (List.range n).map fun j => (j, Action.navStart)

/-- Phase three: each request finishes its navigation and runs its
remaining steps. -/
def phaseRest (n : Nat) (tail : List Action) : List (Nat × Action) :=
  (List.range n).flatMap fun j => (Action.navEnd :: tail).map fun a => (j, a)

/-- The complete exhibited schedule of `n` identical-shaped requests. -/
def fullRun (n : Nat) (pre tail : List Action) : List (Nat × Action) :=
  phasePre n pre ++ phaseStart n ++ phaseRest n tail

theorem projSeq_append (i : Nat) (l1 l2 : List (Nat × Action)) :
    projSeq i (l1 ++ l2) = projSeq i l1 ++ projSeq i l2 := by
  simp [projSeq, List.filter_append]

theorem filter_fst_map_pair (i j : Nat) (l : List Action) :
    (l.map fun a => (j, a)).filter (fun p => p.1 == i) =
      if j = i then l.map (fun a => (j, a)) else [] := by
  induction l with
  | nil => simp
  | cons a t ih =>
    simp only [List.map_cons, List.filter_cons]
    by_cases h : j = i
    · subst h
      simp [ih]
    · simp [h, ih]

theorem projSeq_map_pair (i j : Nat) (l : List Action) :
    projSeq i (l.map fun a => (j, a)) = if j = i then l else [] := by
  unfold projSeq
  rw [filter_fst_map_pair]
  by_cases h : j = i
  · simp [h]
  · simp [h]

theorem projSeq_blocks (i n : Nat) (f : Nat → List Action) :
    projSeq i ((List.range n).flatMap fun j => (f j).map fun a => (j, a)) =
      if i < n then f i else [] := by
  induction n with
  | zero => simp [projSeq]
  | succ m ih =>
    rw [List.range_succ, List.flatMap_append, projSeq_append, ih]
    simp only [List.flatMap_cons, List.flatMap_nil, List.append_nil]
    rw [projSeq_map_pair]
    by_cases h1 : i < m
    · rw [if_pos h1, if_neg (by omega), if_pos (by omega), List.append_nil]
    · by_cases h2 : i = m
      · subst h2
        rw [if_neg h1, if_pos rfl, if_pos (by omega), List.nil_append]
      · rw [if_neg h1, if_neg (by omega), if_neg (by omega), List.append_nil]

theorem map_pair_eq_blocks (j : Nat) :
    ∀ l : List Nat, (l.map fun k => (k, Action.navStart)) =
      l.flatMap fun k => [Action.navStart].map fun a => (k, a)
  | [] => rfl
  | k :: t => by
    simp only [List.map_cons, List.flatMap_cons, List.map_nil]
    rw [map_pair_eq_blocks j t]
    rfl

theorem projSeq_phaseStart (i n : Nat) :
    projSeq i (phaseStart n) = if i < n then [Action.navStart] else [] := by
  unfold phaseStart
  rw [map_pair_eq_blocks 0 (List.range n)]
  exact projSeq_blocks i n fun _ => [Action.navStart]

theorem projSeq_phasePre (i n : Nat) (pre : List Action) :
    projSeq i (phasePre n pre) = if i < n then pre else [] :=
  projSeq_blocks i n fun _ => pre

theorem projSeq_phaseRest (i n : Nat) (tail : List Action) :
    projSeq i (phaseRest n tail) = if i < n then Action.navEnd :: tail else [] :=
  projSeq_blocks i n fun _ => Action.navEnd :: tail

theorem countAct_append (a : Action) (l1 l2 : List Action) :
    countAct a (l1 ++ l2) = countAct a l1 + countAct a l2 := by
  simp [countAct, List.filter_append]

theorem countAct_of_all_step (a : Action) (l : List Action)
    (hl : ∀ x ∈ l, x = Action.step) (ha : a ≠ Action.step) : countAct a l = 0 := by
  unfold countAct
  rw [List.length_eq_zero, List.filter_eq_nil_iff]
  intro x hx
  rw [hl x hx]
  simpa using fun he => ha he.symm

/-- C9 (amended): the handler has no worker pool, queue or any other
inter-request synchronisation, so any interleaving of the per-request
effect sequences is schedulable; in particular, for any `n` concurrent
cache-missing requests whose handler traces consist of internal steps
around a single navigation, there is a schedule — each request runs up
to its navigation start, then all navigations start — after whose
second phase ALL `n` navigations are in flight simultaneously.
Concurrency is unbounded by the code. -/
theorem C9_unbounded_concurrency (n : Nat) (pre tail : List Action) (o : HOpts)
    (e : Nat → Env) (c0 : CacheState)
    (hpre : ∀ a ∈ pre, a = Action.step)
    (hscript : ∀ i, i < n → scriptOf (handler o (e i) c0).2.1 =
        pre ++ [Action.navStart, Action.navEnd] ++ tail) :
    IsInterleaving n (fun i => scriptOf (handler o (e i) c0).2.1) (fullRun n pre tail)
    ∧ (phasePre n pre ++ phaseStart n) ++ phaseRest n tail = fullRun n pre tail
    ∧ activeNavCount n (phasePre n pre ++ phaseStart n) = n := by
  refine ⟨⟨?_, ?_⟩, by simp [fullRun], ?_⟩
  · intro p hp
    simp only [fullRun, phasePre, phaseStart, phaseRest, List.mem_append,
      List.mem_flatMap, List.mem_map, List.mem_range] at hp
    rcases hp with (⟨j, hj, a, _, rfl⟩ | ⟨j, hj, rfl⟩) | ⟨j, hj, a, _, rfl⟩ <;> exact hj
  · intro i hi
    show projSeq i (fullRun n pre tail) = scriptOf (handler o (e i) c0).2.1
    rw [fullRun, projSeq_append, projSeq_append, projSeq_phasePre, projSeq_phaseStart,
      projSeq_phaseRest, if_pos hi, if_pos hi, if_pos hi, hscript i hi]
    simp
  · have hflight : ∀ i, i < n → navInFlight (phasePre n pre ++ phaseStart n) i = true := by
      intro i hi
      unfold navInFlight
      rw [projSeq_append, projSeq_phasePre, projSeq_phaseStart, if_pos hi, if_pos hi,
        countAct_append, countAct_append,
        countAct_of_all_step Action.navStart pre hpre (by simp),
        countAct_of_all_step Action.navEnd pre hpre (by simp)]
      simp [countAct]
    unfold activeNavCount
    rw [List.filter_eq_self.mpr, List.length_range]
    intro i hi
    exact hflight i (List.mem_range.mp hi)

/-- Options for the concurrency scenario: no hooks, cache on. -/
def oC9 : HOpts := { oDef with hasAfterRender := false }

/-- Four distinct target URLs. -/
def urlC9 : Nat → String
  | 0 => "https://h0.com/p"
  | 1 => "https://h1.com/p"
  | 2 => "https://h2.com/p"
  | _ => "https://h3.com/p"

/-- Four concurrent uncached requests for distinct URLs against an
already-launched browser; every navigation succeeds immediately. -/
def envC9 (i : Nat) : Env :=
  { query := [("url", urlC9 i)], sourceUserAgent := "bot/1.0",
    rawBrowserUA := "HeadlessChrome", browserLaunched := true,
    nav := fun _ => some respOk, now := 0 }

/-- The common shape of the four handler traces, as actions. -/
def script9 : List Action :=
  [Action.step, Action.step, Action.step, Action.navStart, Action.navEnd,
   Action.step, Action.step, Action.step]

/-- The three internal steps before the navigation. -/
def pre9 : List Action := [Action.step, Action.step, Action.step]

/-- The three internal steps after the navigation. -/
def tail9 : List Action := [Action.step, Action.step, Action.step]

/-- C9, counterexample to the claim as stated (pool size N = 2, load
2N = 4): the four requests' handler traces all have shape `script9`,
the three-phase schedule is a valid interleaving of them, and right
after its second phase all four navigations are in flight at once —
more than N = 2.  No pool bounds the handler's concurrency. -/
theorem C9_counterexample :
    scriptOf (handler oC9 (envC9 0) cache0).2.1 = script9
    ∧ scriptOf (handler oC9 (envC9 1) cache0).2.1 = script9
    ∧ scriptOf (handler oC9 (envC9 2) cache0).2.1 = script9
    ∧ scriptOf (handler oC9 (envC9 3) cache0).2.1 = script9
    ∧ IsInterleaving 4 (fun _ => script9) (fullRun 4 pre9 tail9)
    ∧ (phasePre 4 pre9 ++ phaseStart 4) ++ phaseRest 4 tail9 = fullRun 4 pre9 tail9
    ∧ activeNavCount 4 (phasePre 4 pre9 ++ phaseStart 4) = 4
    ∧ ¬ activeNavCount 4 (phasePre 4 pre9 ++ phaseStart 4) ≤ 2 := by
  exact ⟨rfl, rfl, rfl, rfl, by decide, rfl, by decide, by decide⟩

/-- The four concrete request scripts. -/
def scripts9 (i : Nat) : List Action := scriptOf (handler oC9 (envC9 i) cache0).2.1

/-- C9, witness: the amended statement applied to the four concrete
requests. -/
theorem C9_witness :
    IsInterleaving 4 scripts9 (fullRun 4 pre9 tail9)
    ∧ (phasePre 4 pre9 ++ phaseStart 4) ++ phaseRest 4 tail9 = fullRun 4 pre9 tail9
    ∧ activeNavCount 4 (phasePre 4 pre9 ++ phaseStart 4) = 4 :=
  C9_unbounded_concurrency 4 pre9 tail9 oC9 envC9 cache0 (by decide) (by decide)

/-! ### C10 -/

theorem orDefaultNat_pos (x : Option Nat) (d : Nat) (hd : 1 ≤ d) :
    1 ≤ orDefaultNat x d := by
  rcases x with _ | n
  · exact hd
  · rcases n with _ | m
    · exact hd
    · simp [orDefaultNat]

/-- C10: decorateOptions replaces falsy configured values with their
defaults — retryTimes 0 becomes 5, cache.max 0 becomes 50,
cache.maxAge 0 becomes 300000, an empty endpoint becomes /render — so
no configuration yields zero retries, an empty endpoint, or an enabled
cache with zero capacity or zero lifetime; `cache = false` (and only a
falsy non-object cache value) leaves the router without a cache, while
the default configuration enables it. -/
theorem C10_decorate_defaults :
    (decorateOptions { retryTimes := some 0 }).retryTimes = 5
    ∧ (decorateOptions { cache := JsCacheOpt.obj (some 0) (some 7) }).cache =
        JsCacheOpt.obj (some 50) (some 7)
    ∧ (decorateOptions { cache := JsCacheOpt.obj (some 3) (some 0) }).cache =
        JsCacheOpt.obj (some 3) (some 300000)
    ∧ (decorateOptions { endpoint := some "" }).endpoint = "/render"
    ∧ (∀ o : OptsIn, 1 ≤ (decorateOptions o).retryTimes)
    ∧ (∀ o : OptsIn, (decorateOptions o).endpoint.isEmpty = false)
    ∧ (∀ o : OptsIn, ∀ m a, (decorateOptions o).cache = JsCacheOpt.obj m a →
        ∃ mv av, m = some mv ∧ a = some av ∧ 1 ≤ mv ∧ 1 ≤ av)
    ∧ (decorateOptions { cache := JsCacheOpt.bool false }).cache = JsCacheOpt.bool false
    ∧ cacheEnabledOf { cache := JsCacheOpt.bool false } = false
    ∧ cacheEnabledOf {} = true := by
  refine ⟨rfl, rfl, rfl, rfl, ?_, ?_, ?_, rfl, rfl, rfl⟩
  · intro o
    exact orDefaultNat_pos o.retryTimes 5 (by omega)
  · intro o
    rcases o with ⟨c, rt, ep, uat, ad⟩
    rcases ep with _ | s
    · rfl
    · simp only [decorateOptions]
      by_cases h : s.isEmpty
      · rw [if_pos h]
        rfl
      · rw [if_neg h]
        exact Bool.eq_false_iff.mpr h
  · intro o m a hc
    rcases o with ⟨c, rt, ep, uat, ad⟩
    rcases c with _ | _ | b | ⟨cm, ca⟩
    · simp only [decorateOptions, JsCacheOpt.obj.injEq] at hc
      exact ⟨50, 300000, hc.1.symm, hc.2.symm, by omega, by omega⟩
    · simp only [decorateOptions, JsCacheOpt.obj.injEq] at hc
      exact ⟨50, 300000, hc.1.symm, hc.2.symm, by omega, by omega⟩
    · rcases b with _ | _
      · simp only [decorateOptions] at hc
        exact absurd hc (by simp)
      · simp only [decorateOptions, JsCacheOpt.obj.injEq] at hc
        exact ⟨50, 300000, hc.1.symm, hc.2.symm, by omega, by omega⟩
    · simp only [decorateOptions, JsCacheOpt.obj.injEq] at hc
      exact ⟨orDefaultNat cm 50, orDefaultNat ca 300000, hc.1.symm, hc.2.symm,
        orDefaultNat_pos cm 50 (by omega), orDefaultNat_pos ca 300000 (by omega)⟩

/-- C10, witness: the enabled-cache invariant instantiated at the
default configuration. -/
theorem C10_witness :
    ∃ mv av, (some 50 : Option Nat) = some mv ∧ (some 300000 : Option Nat) = some av
      ∧ 1 ≤ mv ∧ 1 ≤ av :=
  C10_decorate_defaults.2.2.2.2.2.2.1 {} (some 50) (some 300000) rfl

end PPPR
